import Mathlib

/-!
Verification of the GD (group discussion) evaluation frontend state layer:
a shallow embedding of the two providers in `src/context/AuthContext.tsx`
(auth provider and evaluation-data provider).  Numeric scores are modelled
as rationals, asynchronous network calls as explicit response parameters,
browser-local token storage as an `Option String` component of the state,
and React `useState` cells as explicit state records threaded through each
operation.
-/

namespace GdEval

/-- The fixed five-dimension scoring rubric (`EvaluationCriteria`). -/
structure EvaluationCriteria where
  articulation : ℚ
  relevance : ℚ
  leadership : ℚ
  nonVerbalCommunication : ℚ
  impression : ℚ
deriving DecidableEq, Repr

/-- A normalized discussion session (`GDSession`). -/
structure GDSession where
  id : String
  topic : String
  details : String
  groupName : String
  groupNumber : Nat
  date : Int
  participants : List String
  evaluators : List String
  createdBy : String
  createdAt : Int
deriving DecidableEq, Repr

/-- A normalized evaluation record (`Evaluation`). -/
structure Evaluation where
  id : String
  gdSessionId : String
  studentId : String
  evaluatorId : String
  evaluatorRole : String
  criteria : EvaluationCriteria
  createdAt : Int
deriving DecidableEq, Repr

/-- A raw backend session row (snake_case fields as received over HTTP;
`participants`/`evaluators` may be absent, the code substitutes `[]`). -/
structure RawSession where
  id : String
  topic : String
  details : String
  group_name : String
  group_number : Nat
  date : Int
  participants : Option (List String)
  evaluators : Option (List String)
  created_by : String
  created_at : Int
deriving DecidableEq, Repr

/-- A raw backend evaluation row.  The backend JSON is untyped (`any`); it may
carry an evaluator-role field, which the normalization code never reads —
`evaluator_role` is included here exactly to state that independence. -/
structure RawEvaluation where
  id : String
  gd_session_id : String
  student_id : String
  evaluator_id : String
  evaluator_role : String
  articulation : ℚ
  relevance : ℚ
  leadership : ℚ
  non_verbal_communication : ℚ
  impression : ℚ
  created_at : Int
deriving DecidableEq, Repr

/-- A raw backend profile row (auth provider; snake_case). -/
structure ProfileRow where
  id : String
  name : String
  email : String
  role : String
  department : Option String
  «section» : Option String
  year : Option String
  roll_number : Option String
  designation : Option String
  created_at : Int
deriving DecidableEq, Repr

/-- A normalized user (`User`). -/
structure User where
  id : String
  name : String
  email : String
  role : String
  department : Option String
  «section» : Option String
  year : Option String
  rollNumber : Option String
  designation : Option String
  createdAt : Int
deriving DecidableEq, Repr

/-- JavaScript `x || undefined` on an optional string: an absent or empty
(falsy) string becomes `undefined`. -/
def orUndefined (o : Option String) : Option String :=
  match o with
  | none => none
  | some s => if s = "" then none else some s

/-- `profileToUser`: normalization of a backend profile row into a `User`. -/
def profileToUser (profile : ProfileRow) : User :=
  { id := profile.id
    name := profile.name
    email := profile.email
    role := profile.role
    department := orUndefined profile.department
    «section» := orUndefined profile.«section»
    year := orUndefined profile.year
    rollNumber := orUndefined profile.roll_number
    designation := orUndefined profile.designation
    createdAt := profile.created_at }

/-- The all-zero criteria record (`emptyCriteria` in `calculateScores`). -/
def emptyCriteria : EvaluationCriteria :=
  { articulation := 0, relevance := 0, leadership := 0
    nonVerbalCommunication := 0, impression := 0 }

/-- Result record of `calculateScores`. -/
structure ScoresResult where
  peerAverage : EvaluationCriteria
  instructorScores : EvaluationCriteria
  finalScores : EvaluationCriteria
deriving DecidableEq, Repr

/-- `calculateScores(sessionId, studentId)` from the GD provider: filters the
in-memory evaluations to the (session, student) pair, partitions by
`evaluatorRole`, averages peer criteria, takes the first instructor
evaluation's criteria, and halves the sum of the two records. -/
def calculateScores (evaluations : List Evaluation)
    (sessionId studentId : String) : ScoresResult :=
  let sessionEvaluations := evaluations.filter
    (fun e => e.gdSessionId == sessionId && e.studentId == studentId)
  if sessionEvaluations.length = 0 then
    { peerAverage := emptyCriteria, instructorScores := emptyCriteria
      finalScores := emptyCriteria }
  else
    let peerEvaluations := sessionEvaluations.filter
      (fun e => e.evaluatorRole == "student")
    let instructorEvaluations := sessionEvaluations.filter
      (fun e => e.evaluatorRole == "instructor")
    let peerAverage : EvaluationCriteria :=
      if peerEvaluations.length > 0 then
        { articulation :=
            (peerEvaluations.foldl (fun sum e => sum + e.criteria.articulation) 0)
              / peerEvaluations.length
          relevance :=
            (peerEvaluations.foldl (fun sum e => sum + e.criteria.relevance) 0)
              / peerEvaluations.length
          leadership :=
            (peerEvaluations.foldl (fun sum e => sum + e.criteria.leadership) 0)
              / peerEvaluations.length
          nonVerbalCommunication :=
            (peerEvaluations.foldl
              (fun sum e => sum + e.criteria.nonVerbalCommunication) 0)
              / peerEvaluations.length
          impression :=
            (peerEvaluations.foldl (fun sum e => sum + e.criteria.impression) 0)
              / peerEvaluations.length }
      else emptyCriteria
    let instructorScores : EvaluationCriteria :=
      match instructorEvaluations with
      | [] => emptyCriteria
      | e :: _ => e.criteria
    let finalScores : EvaluationCriteria :=
      { articulation := (peerAverage.articulation + instructorScores.articulation) / 2
        relevance := (peerAverage.relevance + instructorScores.relevance) / 2
        leadership := (peerAverage.leadership + instructorScores.leadership) / 2
        nonVerbalCommunication :=
          (peerAverage.nonVerbalCommunication + instructorScores.nonVerbalCommunication) / 2
        impression := (peerAverage.impression + instructorScores.impression) / 2 }
    { peerAverage := peerAverage, instructorScores := instructorScores
      finalScores := finalScores }

/-- Spec-side per-criterion arithmetic mean of a list of criteria records,
all-zero when the list is empty. -/
def criteriaMean (l : List EvaluationCriteria) : EvaluationCriteria :=
  if l.isEmpty then emptyCriteria
  else
    { articulation := (l.map (fun c => c.articulation)).sum / l.length
      relevance := (l.map (fun c => c.relevance)).sum / l.length
      leadership := (l.map (fun c => c.leadership)).sum / l.length
      nonVerbalCommunication :=
        (l.map (fun c => c.nonVerbalCommunication)).sum / l.length
      impression := (l.map (fun c => c.impression)).sum / l.length }

/-- Spec-side unweighted mean of two criteria records. -/
def criteriaHalfSum (a b : EvaluationCriteria) : EvaluationCriteria :=
  { articulation := (a.articulation + b.articulation) / 2
    relevance := (a.relevance + b.relevance) / 2
    leadership := (a.leadership + b.leadership) / 2
    nonVerbalCommunication := (a.nonVerbalCommunication + b.nonVerbalCommunication) / 2
    impression := (a.impression + b.impression) / 2 }

/-- Spec-side restatement of the scoring contract, written from the spec's
words: filter to the pair, partition by role, peer mean (all-zero fallback),
first instructor record (all-zero fallback), final = half the sum; all three
all-zero on an empty filtered set. -/
def specScores (evaluations : List Evaluation)
    (sessionId studentId : String) : ScoresResult :=
  let filtered := evaluations.filter
    (fun e => e.gdSessionId == sessionId && e.studentId == studentId)
  let peers := (filtered.filter (fun e => e.evaluatorRole == "student")).map
    (fun e => e.criteria)
  let instrs := (filtered.filter (fun e => e.evaluatorRole == "instructor")).map
    (fun e => e.criteria)
  if filtered.isEmpty then
    { peerAverage := emptyCriteria, instructorScores := emptyCriteria
      finalScores := emptyCriteria }
  else
    let pa := criteriaMean peers
    let ins := instrs.headD emptyCriteria
    { peerAverage := pa, instructorScores := ins
      finalScores := criteriaHalfSum pa ins }

/-- A backend HTTP round trip as seen by the caller: a 2xx body, or a
failure (non-2xx with its derived message, or network error). -/
inductive ApiResponse (α : Type) where
  | ok (data : α)
  | err (msg : String)
deriving DecidableEq, Repr

/-- Formatting of a raw session row into a `GDSession` (the mapping applied
both in `fetchData` and to `createSession`'s response). -/
def formatSession (s : RawSession) : GDSession :=
  { id := s.id
    topic := s.topic
    details := s.details
    groupName := s.group_name
    groupNumber := s.group_number
    date := s.date
    participants := s.participants.getD []
    evaluators := s.evaluators.getD []
    createdBy := s.created_by
    createdAt := s.created_at }

/-- Normalization of a raw evaluation row inside `fetchData`: the session is
looked up in the freshly formatted session list, and `evaluatorRole` is
`"instructor"` exactly when the found session's `createdBy` equals the row's
`evaluator_id` (JavaScript `session?.createdBy === e.evaluator_id` is false
when no session is found). -/
def formatEvaluation (sessions : List GDSession) (e : RawEvaluation) : Evaluation :=
  let session := sessions.find? (fun s => s.id == e.gd_session_id)
  let isInstructor : Bool :=
    match session with
    | some s => s.createdBy == e.evaluator_id
    | none => false
  { id := e.id
    gdSessionId := e.gd_session_id
    studentId := e.student_id
    evaluatorId := e.evaluator_id
    evaluatorRole := if isInstructor then "instructor" else "student"
    criteria :=
      { articulation := e.articulation
        relevance := e.relevance
        leadership := e.leadership
        nonVerbalCommunication := e.non_verbal_communication
        impression := e.impression }
    createdAt := e.created_at }

/-- Normalization of `submitEvaluation`'s response row: textually the same
logic as in `fetchData`, but the session lookup runs over the provider's
current session collection. -/
def formatEvaluationSubmit (sessions : List GDSession) (e : RawEvaluation) : Evaluation :=
  let session := sessions.find? (fun s => s.id == e.gd_session_id)
  let isInstructor : Bool :=
    match session with
    | some s => s.createdBy == e.evaluator_id
    | none => false
  { id := e.id
    gdSessionId := e.gd_session_id
    studentId := e.student_id
    evaluatorId := e.evaluator_id
    evaluatorRole := if isInstructor then "instructor" else "student"
    criteria :=
      { articulation := e.articulation
        relevance := e.relevance
        leadership := e.leadership
        nonVerbalCommunication := e.non_verbal_communication
        impression := e.impression }
    createdAt := e.created_at }

/-- Auth provider state: the `user` cell, the `authToken` slot of
browser-local storage, and the `isLoading` flag. -/
structure AuthState where
  user : Option User
  token : Option String
  isLoading : Bool
deriving DecidableEq, Repr

/-- Outcome of the login/register round trip: a 2xx body carrying the
profile fields and a token, a non-2xx response, or a transport failure
with its message. -/
inductive LoginResponse where
  | ok (profile : ProfileRow) (token : String)
  | notOk
  | netErr (msg : String)
deriving DecidableEq, Repr

/-- `login(email, password)`: sets `isLoading`, performs the round trip; on a
2xx response stores the normalized user and the returned token; on a non-2xx
response throws `"Login failed"` (rethrown from the catch block); the
`finally` block resets `isLoading`.  The token slot is written only on the
success path. -/
def login (st : AuthState) (resp : LoginResponse) :
    AuthState × Except String Unit :=
  match resp with
  | .ok profile tok =>
      ({ user := some (profileToUser profile), token := some tok
         isLoading := false }, .ok ())
  | .notOk =>
      ({ st with isLoading := false }, .error "Login failed")
  | .netErr msg =>
      ({ st with isLoading := false },
       .error (if msg = "" then "Failed to log in" else msg))

/-- `register(data)`: same shape as `login` with its own messages. -/
def register (st : AuthState) (resp : LoginResponse) :
    AuthState × Except String Unit :=
  match resp with
  | .ok profile tok =>
      ({ user := some (profileToUser profile), token := some tok
         isLoading := false }, .ok ())
  | .notOk =>
      ({ st with isLoading := false }, .error "Registration failed")
  | .netErr msg =>
      ({ st with isLoading := false },
       .error (if msg = "" then "Failed to register" else msg))

/-- `updateProfile(data)`: throws inside the `try` when no user is logged in
(so the `finally` still resets `isLoading`); otherwise performs the round
trip and replaces the user with the normalized response. -/
def updateProfile (st : AuthState) (resp : ApiResponse ProfileRow) :
    AuthState × Except String Unit :=
  match st.user with
  | none => ({ st with isLoading := false }, .error "No user is logged in")
  | some _ =>
      match resp with
      | .ok updatedUser =>
          ({ st with
              user := some (profileToUser updatedUser),
              isLoading := false }, .ok ())
      | .err _ =>
          ({ st with isLoading := false }, .error "Profile update failed")

/-- `logout()`: removes the stored token, clears the user, resets
`isLoading`. -/
def logout (_st : AuthState) : AuthState × Except String Unit :=
  ({ user := none, token := none, isLoading := false }, .ok ())

/-- GD provider state: the session and evaluation collections and the
provider's own `isLoading` flag. -/
structure GDState where
  sessions : List GDSession
  evaluations : List Evaluation
  isLoading : Bool
deriving DecidableEq, Repr

/-- The two round trips `fetchData` performs. -/
structure FetchResponses where
  sessionsResp : ApiResponse (List RawSession)
  evaluationsResp : ApiResponse (List RawEvaluation)
deriving DecidableEq, Repr

/-- `fetchData()`: skips entirely when no user (or a user with a falsy id) is
present; with no stored token resets `isLoading` and returns; otherwise
fetches and normalizes sessions, then evaluations (the catch block only
logs, so a failed evaluations fetch still leaves the new sessions in place);
the `finally` resets `isLoading`. -/
def fetchData (user : Option User) (token : Option String) (st : GDState)
    (resps : FetchResponses) : GDState :=
  match user with
  | none => st
  | some u =>
      if u.id = "" then st
      else
        match token with
        | none => { st with isLoading := false }
        | some _ =>
            match resps.sessionsResp with
            | .err _ => { st with isLoading := false }
            | .ok sessionsData =>
                let formattedSessions := sessionsData.map formatSession
                match resps.evaluationsResp with
                | .err _ =>
                    { st with sessions := formattedSessions, isLoading := false }
                | .ok evaluationsData =>
                    { sessions := formattedSessions
                      evaluations :=
                        evaluationsData.map (formatEvaluation formattedSessions)
                      isLoading := false }

/-- `createSession(data)`: throws a permission error before any state change
or network activity when there is no user or the user is not an instructor;
otherwise posts, appends the formatted response session, re-fetches all
data, and resets `isLoading` in the `finally`.  The `Bool` component records
whether a network request was issued. -/
def createSession (user : Option User) (token : Option String) (st : GDState)
    (resp : ApiResponse RawSession) (refetch : FetchResponses) :
    Except String GDSession × GDState × Bool :=
  match user with
  | none => (.error "You must be logged in to create a session", st, false)
  | some u =>
      if u.role ≠ "instructor" then
        (.error "Only instructors can create sessions", st, false)
      else
        match resp with
        | .err msg => (.error msg, { st with isLoading := false }, true)
        | .ok newSession =>
            let formattedSession := formatSession newSession
            let st1 : GDState :=
              { st with
                  sessions := st.sessions ++ [formattedSession],
                  isLoading := true }
            let st2 := fetchData user token st1 refetch
            (.ok formattedSession, { st2 with isLoading := false }, true)

/-- `getSessionById(id)`: first session with the given id, if any. -/
def getSessionById (sessions : List GDSession) (id : String) : Option GDSession :=
  sessions.find? (fun session => session.id == id)

/-- `getSessionsForUser()`: `(participatingSessions, evaluatingSessions)`.
Instructors get the sessions they created under "evaluating" and nothing
under "participating"; other users are matched by roll number (empty string
when absent) against each session's `participants` and `evaluators`. -/
def getSessionsForUser (user : Option User) (sessions : List GDSession) :
    List GDSession × List GDSession :=
  match user with
  | none => ([], [])
  | some u =>
      if u.role = "instructor" then
        ([], sessions.filter (fun session => session.createdBy == u.id))
      else
        let rollNumber := u.rollNumber.getD ""
        (sessions.filter (fun session => session.participants.contains rollNumber),
         sessions.filter (fun session => session.evaluators.contains rollNumber))

/-- `submitEvaluation(gdSessionId, studentId, criteria)`: throws when not
logged in (before any state change or network activity); otherwise posts,
appends the normalized response evaluation, re-fetches all data, and resets
`isLoading` in the `finally`.  The `Bool` component records whether a
network request was issued. -/
def submitEvaluation (user : Option User) (token : Option String) (st : GDState)
    (resp : ApiResponse RawEvaluation) (refetch : FetchResponses) :
    Except String Evaluation × GDState × Bool :=
  match user with
  | none => (.error "You must be logged in to submit an evaluation", st, false)
  | some _ =>
      match resp with
      | .err msg => (.error msg, { st with isLoading := false }, true)
      | .ok newEvaluation =>
          let formattedEvaluation := formatEvaluationSubmit st.sessions newEvaluation
          let st1 : GDState :=
            { st with
                evaluations := st.evaluations ++ [formattedEvaluation],
                isLoading := true }
          let st2 := fetchData user token st1 refetch
          (.ok formattedEvaluation, { st2 with isLoading := false }, true)

/-- `getEvaluationsForSession(sessionId)`: filter over the in-memory
evaluations. -/
def getEvaluationsForSession (evaluations : List Evaluation)
    (sessionId : String) : List Evaluation :=
  evaluations.filter (fun e => e.gdSessionId == sessionId)

/-! Concrete sample data used to evaluate the definitions at specific
inputs. -/

/-- The spec's worked example: one peer's criteria. -/
def sampleCriteria : EvaluationCriteria :=
  { articulation := 8, relevance := 6, leadership := 7
    nonVerbalCommunication := 5, impression := 9 }

/-- A single peer (student-role) evaluation. -/
def samplePeerEvaluation : Evaluation :=
  { id := "e1", gdSessionId := "s1", studentId := "st1", evaluatorId := "p1"
    evaluatorRole := "student", criteria := sampleCriteria, createdAt := 0 }

/-- A single instructor-role evaluation with all-ten criteria. -/
def sampleInstructorEvaluation : Evaluation :=
  { id := "e2", gdSessionId := "s1", studentId := "st1", evaluatorId := "i1"
    evaluatorRole := "instructor"
    criteria :=
      { articulation := 10, relevance := 10, leadership := 10
        nonVerbalCommunication := 10, impression := 10 }
    createdAt := 0 }

/-- A student user with roll number `"r1"`. -/
def sampleStudentUser : User :=
  { id := "u1", name := "Asha", email := "asha@example.com", role := "student"
    department := none, «section» := none, year := none
    rollNumber := some "r1", designation := none, createdAt := 0 }

/-- An instructor user. -/
def sampleInstructorUser : User :=
  { id := "i1", name := "Prof", email := "prof@example.com", role := "instructor"
    department := none, «section» := none, year := none
    rollNumber := none, designation := some "Professor", createdAt := 0 }

/-- A session created by `"i1"` whose participants and evaluators both
contain roll number `"r1"`. -/
def sampleSession : GDSession :=
  { id := "s1", topic := "t", details := "d", groupName := "g", groupNumber := 1
    date := 0, participants := ["r1"], evaluators := ["r1"]
    createdBy := "i1", createdAt := 0 }

/-- A raw evaluation row whose incoming role field claims "instructor". -/
def sampleRawEvaluation : RawEvaluation :=
  { id := "e1", gd_session_id := "s1", student_id := "st1", evaluator_id := "p1"
    evaluator_role := "instructor", articulation := 8, relevance := 6
    leadership := 7, non_verbal_communication := 5, impression := 9
    created_at := 0 }

/-- An unauthenticated auth state that still holds a stale stored token. -/
def staleAuthState : AuthState :=
  { user := none, token := some "stale", isLoading := false }

/-- An idle GD provider state. -/
def idleGDState : GDState :=
  { sessions := [], evaluations := [], isLoading := false }

/-- Benign refetch responses. -/
def sampleFetchResponses : FetchResponses :=
  { sessionsResp := .ok [], evaluationsResp := .ok [] }

/-! Helper lemmas. -/

/-- JavaScript `reduce((sum, e) => sum + f(e), init)` computes `init` plus the
sum of the mapped list. -/
theorem foldl_add_eq_sum {α : Type} (f : α → ℚ) (l : List α) (init : ℚ) :
    l.foldl (fun sum e => sum + f e) init = init + (l.map f).sum := by
  induction l generalizing init with
  | nil => simp
  | cons a t ih =>
      simp only [List.foldl_cons, List.map_cons, List.sum_cons, ih]
      ring

/-- The code's `calculateScores` agrees with the spec-side restatement
`specScores` on every input. -/
theorem calculateScores_eq_specScores (evals : List Evaluation)
    (sid stid : String) :
    calculateScores evals sid stid = specScores evals sid stid := by
  simp only [calculateScores, specScores]
  by_cases hfe :
      evals.filter (fun e => e.gdSessionId == sid && e.studentId == stid) = []
  · simp [hfe]
  · have h1 :
        ¬ (evals.filter
            (fun e => e.gdSessionId == sid && e.studentId == stid)).length = 0 := by
      simpa [List.length_eq_zero] using hfe
    have h2 :
        ((evals.filter
            (fun e => e.gdSessionId == sid && e.studentId == stid)).isEmpty)
          = false := by
      simpa [List.isEmpty_iff] using hfe
    simp only [h1, if_false, h2, Bool.false_eq_true]
    cases hi :
        (evals.filter
          (fun e => e.gdSessionId == sid && e.studentId == stid)).filter
          (fun e => e.evaluatorRole == "instructor") with
    | nil =>
        by_cases hp :
            (evals.filter
              (fun e => e.gdSessionId == sid && e.studentId == stid)).filter
              (fun e => e.evaluatorRole == "student") = []
        · rw [hp]
          simp [criteriaMean, criteriaHalfSum, emptyCriteria, List.headD]
        · have hlen :
              0 < ((evals.filter
                (fun e => e.gdSessionId == sid && e.studentId == stid)).filter
                (fun e => e.evaluatorRole == "student")).length :=
            List.length_pos.mpr hp
          have hmap :
              ¬ (((evals.filter
                (fun e => e.gdSessionId == sid && e.studentId == stid)).filter
                (fun e => e.evaluatorRole == "student")).map
                  (fun e => e.criteria)).isEmpty = true := by
            simpa [List.isEmpty_iff, List.map_eq_nil_iff] using hp
          rw [if_pos hlen]
          simp only [criteriaMean]
          rw [if_neg hmap]
          simp [criteriaHalfSum, emptyCriteria, foldl_add_eq_sum,
            List.map_map, Function.comp_def, List.headD]
    | cons e rest =>
        by_cases hp :
            (evals.filter
              (fun e => e.gdSessionId == sid && e.studentId == stid)).filter
              (fun e => e.evaluatorRole == "student") = []
        · rw [hp]
          simp [criteriaMean, criteriaHalfSum, emptyCriteria, List.headD]
        · have hlen :
              0 < ((evals.filter
                (fun e => e.gdSessionId == sid && e.studentId == stid)).filter
                (fun e => e.evaluatorRole == "student")).length :=
            List.length_pos.mpr hp
          have hmap :
              ¬ (((evals.filter
                (fun e => e.gdSessionId == sid && e.studentId == stid)).filter
                (fun e => e.evaluatorRole == "student")).map
                  (fun e => e.criteria)).isEmpty = true := by
            simpa [List.isEmpty_iff, List.map_eq_nil_iff] using hp
          rw [if_pos hlen]
          simp only [criteriaMean]
          rw [if_neg hmap]
          simp [criteriaHalfSum, emptyCriteria, foldl_add_eq_sum,
            List.map_map, Function.comp_def, List.headD]

/-- C1: `calculateScores(sessionId, studentId)` filters the evaluations to
the (session, student) pair and partitions them by `evaluatorRole`; the peer
average is the per-criterion arithmetic mean over the student-role
evaluations (all-zero if none), the instructor score is the criteria of the
first instructor-role evaluation (all-zero if none), the final score per
criterion is (peerAverage + instructorScore) / 2, and on an empty filtered
set all three records are all-zero — i.e. `calculateScores` coincides with
the spec-side `specScores` on every input. -/
theorem calculateScores_correct (evals : List Evaluation) (sid stid : String) :
    calculateScores evals sid stid = specScores evals sid stid :=
  calculateScores_eq_specScores evals sid stid

/-- C2 counterexample: a single peer evaluation with articulation 8 yields
final articulation (8 + 0) / 2 = 4, so `finalScores` differs from
`peerAverage` even though every evaluation has role "student". -/
theorem onlyPeers_final_ne_peerAverage :
    (calculateScores [samplePeerEvaluation] "s1" "st1").finalScores ≠
      (calculateScores [samplePeerEvaluation] "s1" "st1").peerAverage := by
  intro h
  have h1 := congrArg EvaluationCriteria.articulation h
  norm_num [calculateScores, samplePeerEvaluation, sampleCriteria,
    emptyCriteria, List.filter_cons, List.filter_nil,
    (show ("student" : String) ≠ "instructor" by decide)] at h1

/-- C2 (amended): for every non-empty evaluation set for a (session, student)
pair in which every evaluation has role "student", each criterion of
`finalScores` is the corresponding criterion of `peerAverage` divided
by 2 (the absent instructor contributes a zero vector to the mean). -/
theorem onlyPeers_final_eq_half_peerAverage (evals : List Evaluation)
    (sid stid : String)
    (hne : evals.filter (fun e => e.gdSessionId == sid && e.studentId == stid) ≠ [])
    (hall : ∀ e ∈ evals.filter
      (fun e => e.gdSessionId == sid && e.studentId == stid),
      e.evaluatorRole = "student") :
    (calculateScores evals sid stid).finalScores.articulation
        = (calculateScores evals sid stid).peerAverage.articulation / 2 ∧
    (calculateScores evals sid stid).finalScores.relevance
        = (calculateScores evals sid stid).peerAverage.relevance / 2 ∧
    (calculateScores evals sid stid).finalScores.leadership
        = (calculateScores evals sid stid).peerAverage.leadership / 2 ∧
    (calculateScores evals sid stid).finalScores.nonVerbalCommunication
        = (calculateScores evals sid stid).peerAverage.nonVerbalCommunication / 2 ∧
    (calculateScores evals sid stid).finalScores.impression
        = (calculateScores evals sid stid).peerAverage.impression / 2 := by
  have hi :
      (evals.filter
        (fun e => e.gdSessionId == sid && e.studentId == stid)).filter
        (fun e => e.evaluatorRole == "instructor") = [] := by
    refine List.filter_eq_nil_iff.mpr ?_
    intro e he
    simp [hall e he]
  have hfe :
      ((evals.filter
        (fun e => e.gdSessionId == sid && e.studentId == stid)).isEmpty)
        = false := by
    simp [List.isEmpty_iff, hne]
  rw [calculateScores_eq_specScores]
  simp only [specScores, hi, hfe]
  simp [criteriaHalfSum, emptyCriteria, List.headD]

/-- C2 amended, witnessed at a single concrete peer evaluation. -/
theorem onlyPeers_final_eq_half_peerAverage_witness :
    (calculateScores [samplePeerEvaluation] "s1" "st1").finalScores.articulation
        = (calculateScores [samplePeerEvaluation] "s1" "st1").peerAverage.articulation / 2 ∧
    (calculateScores [samplePeerEvaluation] "s1" "st1").finalScores.relevance
        = (calculateScores [samplePeerEvaluation] "s1" "st1").peerAverage.relevance / 2 ∧
    (calculateScores [samplePeerEvaluation] "s1" "st1").finalScores.leadership
        = (calculateScores [samplePeerEvaluation] "s1" "st1").peerAverage.leadership / 2 ∧
    (calculateScores [samplePeerEvaluation] "s1" "st1").finalScores.nonVerbalCommunication
        = (calculateScores [samplePeerEvaluation] "s1" "st1").peerAverage.nonVerbalCommunication / 2 ∧
    (calculateScores [samplePeerEvaluation] "s1" "st1").finalScores.impression
        = (calculateScores [samplePeerEvaluation] "s1" "st1").peerAverage.impression / 2 :=
  onlyPeers_final_eq_half_peerAverage [samplePeerEvaluation] "s1" "st1"
    (by decide) (by decide)

/-- C3: for every non-empty evaluation set for a (session, student) pair in
which every evaluation has role "instructor", each criterion of
`finalScores` is the corresponding criterion of `instructorScores` divided
by 2. -/
theorem onlyInstructor_final_eq_half_instructor (evals : List Evaluation)
    (sid stid : String)
    (hne : evals.filter (fun e => e.gdSessionId == sid && e.studentId == stid) ≠ [])
    (hall : ∀ e ∈ evals.filter
      (fun e => e.gdSessionId == sid && e.studentId == stid),
      e.evaluatorRole = "instructor") :
    (calculateScores evals sid stid).finalScores.articulation
        = (calculateScores evals sid stid).instructorScores.articulation / 2 ∧
    (calculateScores evals sid stid).finalScores.relevance
        = (calculateScores evals sid stid).instructorScores.relevance / 2 ∧
    (calculateScores evals sid stid).finalScores.leadership
        = (calculateScores evals sid stid).instructorScores.leadership / 2 ∧
    (calculateScores evals sid stid).finalScores.nonVerbalCommunication
        = (calculateScores evals sid stid).instructorScores.nonVerbalCommunication / 2 ∧
    (calculateScores evals sid stid).finalScores.impression
        = (calculateScores evals sid stid).instructorScores.impression / 2 := by
  have hp :
      (evals.filter
        (fun e => e.gdSessionId == sid && e.studentId == stid)).filter
        (fun e => e.evaluatorRole == "student") = [] := by
    refine List.filter_eq_nil_iff.mpr ?_
    intro e he
    simp [hall e he]
  have hfe :
      ((evals.filter
        (fun e => e.gdSessionId == sid && e.studentId == stid)).isEmpty)
        = false := by
    simp [List.isEmpty_iff, hne]
  rw [calculateScores_eq_specScores]
  simp only [specScores, hp, hfe]
  simp [criteriaHalfSum, criteriaMean, emptyCriteria, List.headD]

/-- C3, witnessed at a single concrete instructor evaluation. -/
theorem onlyInstructor_final_eq_half_instructor_witness :
    (calculateScores [sampleInstructorEvaluation] "s1" "st1").finalScores.articulation
        = (calculateScores [sampleInstructorEvaluation] "s1" "st1").instructorScores.articulation / 2 ∧
    (calculateScores [sampleInstructorEvaluation] "s1" "st1").finalScores.relevance
        = (calculateScores [sampleInstructorEvaluation] "s1" "st1").instructorScores.relevance / 2 ∧
    (calculateScores [sampleInstructorEvaluation] "s1" "st1").finalScores.leadership
        = (calculateScores [sampleInstructorEvaluation] "s1" "st1").instructorScores.leadership / 2 ∧
    (calculateScores [sampleInstructorEvaluation] "s1" "st1").finalScores.nonVerbalCommunication
        = (calculateScores [sampleInstructorEvaluation] "s1" "st1").instructorScores.nonVerbalCommunication / 2 ∧
    (calculateScores [sampleInstructorEvaluation] "s1" "st1").finalScores.impression
        = (calculateScores [sampleInstructorEvaluation] "s1" "st1").instructorScores.impression / 2 :=
  onlyInstructor_final_eq_half_instructor [sampleInstructorEvaluation] "s1" "st1"
    (by decide) (by decide)

/-- C4 counterexample: a login call that receives a non-2xx response leaves a
previously stored token in place — `login` never removes the token on
failure (only the initialization session check does). -/
theorem login_failure_keeps_token :
    (login staleAuthState .notOk).1.token = some "stale" ∧
    ¬ (login staleAuthState .notOk).1.token = none := by
  exact ⟨rfl, by simp [login, staleAuthState]⟩

/-- C4 (amended): a login call that receives a non-2xx response surfaces the
error `"Login failed"`, the user state remains `none`, and the stored token
is left unchanged (it is not removed). -/
theorem login_failure_behavior (st : AuthState) (h : st.user = none) :
    (login st .notOk).1.user = none ∧
    (login st .notOk).2 = .error "Login failed" ∧
    (login st .notOk).1.token = st.token := by
  simp [login, h]

/-- C4 amended, witnessed on an unauthenticated state holding a stale
token. -/
theorem login_failure_behavior_witness :
    (login staleAuthState .notOk).1.user = none ∧
    (login staleAuthState .notOk).2 = .error "Login failed" ∧
    (login staleAuthState .notOk).1.token = staleAuthState.token :=
  login_failure_behavior staleAuthState rfl

/-- C5: `createSession` invoked with no authenticated user or by a
non-instructor fails with a permission error, issues no network request
(the `Bool` trace is `false`), and leaves the provider state — in
particular the session and evaluation collections — unchanged. -/
theorem createSession_permission_guard (user : Option User)
    (token : Option String) (st : GDState) (resp : ApiResponse RawSession)
    (refetch : FetchResponses)
    (h : ∀ u, user = some u → u.role ≠ "instructor") :
    ∃ msg, createSession user token st resp refetch =
      (.error msg, st, false) := by
  cases user with
  | none => exact ⟨"You must be logged in to create a session", rfl⟩
  | some u =>
      refine ⟨"Only instructors can create sessions", ?_⟩
      simp [createSession, h u rfl]

/-- C5, witnessed for a student caller. -/
theorem createSession_permission_guard_witness :
    ∃ msg, createSession (some sampleStudentUser) none idleGDState
      (.err "boom") sampleFetchResponses = (.error msg, idleGDState, false) :=
  createSession_permission_guard (some sampleStudentUser) none idleGDState
    (.err "boom") sampleFetchResponses
    (by intro u hu; cases hu; decide)

/-- C6: for an authenticated instructor, `getSessionsForUser` returns no
participating sessions and exactly the sessions whose `createdBy` is the
instructor's id as evaluating sessions. -/
theorem getSessionsForUser_instructor_view (sessions : List GDSession)
    (u : User) (h : u.role = "instructor") :
    (getSessionsForUser (some u) sessions).1 = [] ∧
    ∀ s, s ∈ (getSessionsForUser (some u) sessions).2 ↔
      (s ∈ sessions ∧ s.createdBy = u.id) := by
  simp [getSessionsForUser, h, List.mem_filter]

/-- C6, witnessed on a one-session collection. -/
theorem getSessionsForUser_instructor_view_witness :
    (getSessionsForUser (some sampleInstructorUser) [sampleSession]).1 = [] ∧
    ∀ s, s ∈ (getSessionsForUser (some sampleInstructorUser) [sampleSession]).2 ↔
      (s ∈ [sampleSession] ∧ s.createdBy = sampleInstructorUser.id) :=
  getSessionsForUser_instructor_view [sampleSession] sampleInstructorUser rfl

/-- C7: for an authenticated non-instructor with roll number `r`, the
participating sessions are exactly the sessions whose `participants` contain
`r`, the evaluating sessions exactly those whose `evaluators` contain `r`,
and one session can appear in both lists. -/
theorem getSessionsForUser_student_view (sessions : List GDSession)
    (u : User) (r : String) (hrole : ¬ u.role = "instructor")
    (hroll : u.rollNumber = some r) :
    (∀ s, s ∈ (getSessionsForUser (some u) sessions).1 ↔
      (s ∈ sessions ∧ r ∈ s.participants)) ∧
    (∀ s, s ∈ (getSessionsForUser (some u) sessions).2 ↔
      (s ∈ sessions ∧ r ∈ s.evaluators)) ∧
    (∃ (u2 : User) (ss : List GDSession) (s : GDSession),
      ¬ u2.role = "instructor" ∧
      s ∈ (getSessionsForUser (some u2) ss).1 ∧
      s ∈ (getSessionsForUser (some u2) ss).2) := by
  refine ⟨?_, ?_,
    ⟨sampleStudentUser, [sampleSession], sampleSession, by decide, by decide,
      by decide⟩⟩
  · intro s
    simp [getSessionsForUser, hrole, hroll, List.mem_filter]
  · intro s
    simp [getSessionsForUser, hrole, hroll, List.mem_filter]

/-- C7, witnessed for the sample student and session. -/
theorem getSessionsForUser_student_view_witness :
    (∀ s, s ∈ (getSessionsForUser (some sampleStudentUser) [sampleSession]).1 ↔
      (s ∈ [sampleSession] ∧ "r1" ∈ s.participants)) ∧
    (∀ s, s ∈ (getSessionsForUser (some sampleStudentUser) [sampleSession]).2 ↔
      (s ∈ [sampleSession] ∧ "r1" ∈ s.evaluators)) ∧
    (∃ (u2 : User) (ss : List GDSession) (s : GDSession),
      ¬ u2.role = "instructor" ∧
      s ∈ (getSessionsForUser (some u2) ss).1 ∧
      s ∈ (getSessionsForUser (some u2) ss).2) :=
  getSessionsForUser_student_view [sampleSession] sampleStudentUser "r1"
    (by decide) rfl

/-- C8: in both normalization paths (bulk fetch and submit response), the
stored `evaluatorRole` is "instructor" exactly when the first session whose
id matches the row's session id was created by the row's evaluator, and the
result is independent of any evaluator-role field on the raw input row. -/
theorem evaluatorRole_recomputed (sessions : List GDSession)
    (e : RawEvaluation) (x : String) :
    ((formatEvaluation sessions e).evaluatorRole = "instructor" ↔
      ∃ s, sessions.find? (fun s2 => s2.id == e.gd_session_id) = some s ∧
        s.createdBy = e.evaluator_id) ∧
    formatEvaluation sessions { e with evaluator_role := x } =
      formatEvaluation sessions e ∧
    ((formatEvaluationSubmit sessions e).evaluatorRole = "instructor" ↔
      ∃ s, sessions.find? (fun s2 => s2.id == e.gd_session_id) = some s ∧
        s.createdBy = e.evaluator_id) ∧
    formatEvaluationSubmit sessions { e with evaluator_role := x } =
      formatEvaluationSubmit sessions e := by
  cases hf : sessions.find? (fun s2 => s2.id == e.gd_session_id) with
  | none =>
      refine ⟨?_, ?_, ?_, ?_⟩ <;>
        simp [formatEvaluation, formatEvaluationSubmit, hf]
  | some s =>
      by_cases hc : s.createdBy = e.evaluator_id
      · refine ⟨?_, ?_, ?_, ?_⟩ <;>
          simp [formatEvaluation, formatEvaluationSubmit, hf, hc]
      · refine ⟨?_, ?_, ?_, ?_⟩ <;>
          simp [formatEvaluation, formatEvaluationSubmit, hf, hc]

/-- C10: when the row's session id matches no session in the collection, both
normalization paths classify the evaluator as "student" — a missing session
never yields "instructor". -/
theorem missing_session_yields_student_role (sessions : List GDSession)
    (e : RawEvaluation)
    (h : ∀ s ∈ sessions, ¬ s.id = e.gd_session_id) :
    (formatEvaluation sessions e).evaluatorRole = "student" ∧
    (formatEvaluationSubmit sessions e).evaluatorRole = "student" := by
  have hf : sessions.find? (fun s2 => s2.id == e.gd_session_id) = none := by
    rw [List.find?_eq_none]
    intro s hs
    simpa using h s hs
  simp [formatEvaluation, formatEvaluationSubmit, hf]

/-- C10, witnessed on the empty session collection (note the raw row even
claims "instructor" and is still classified "student"). -/
theorem missing_session_yields_student_role_witness :
    (formatEvaluation [] sampleRawEvaluation).evaluatorRole = "student" ∧
    (formatEvaluationSubmit [] sampleRawEvaluation).evaluatorRole = "student" :=
  missing_session_yields_student_role [] sampleRawEvaluation (by simp)

/-- C9: starting from a non-loading provider state, every provider method —
login, register, updateProfile, logout, fetchData, createSession,
submitEvaluation — leaves `isLoading` false on every completion path
(success, backend error, or precondition failure). -/
theorem isLoading_reset_after_completion (stA : AuthState) (stG : GDState)
    (hG : stG.isLoading = false)
    (respL respR : LoginResponse) (respU : ApiResponse ProfileRow)
    (user : Option User) (token : Option String)
    (respC : ApiResponse RawSession) (respS : ApiResponse RawEvaluation)
    (refetch : FetchResponses) :
    (login stA respL).1.isLoading = false ∧
    (register stA respR).1.isLoading = false ∧
    (updateProfile stA respU).1.isLoading = false ∧
    (logout stA).1.isLoading = false ∧
    (fetchData user token stG refetch).isLoading = false ∧
    (createSession user token stG respC refetch).2.1.isLoading = false ∧
    (submitEvaluation user token stG respS refetch).2.1.isLoading = false := by
  have hfetch : ∀ (u : Option User) (tok : Option String) (st : GDState)
      (r : FetchResponses), st.isLoading = false →
      (fetchData u tok st r).isLoading = false := by
    intro u tok st r hst
    cases u with
    | none => simpa [fetchData] using hst
    | some u2 =>
        by_cases hid : u2.id = ""
        · simpa [fetchData, hid] using hst
        · cases tok with
          | none => simp [fetchData, hid]
          | some t =>
              obtain ⟨sresp, eresp⟩ := r
              cases sresp with
              | err m => simp [fetchData, hid]
              | ok l =>
                  cases eresp with
                  | err m => simp [fetchData, hid]
                  | ok l2 => simp [fetchData, hid]
  refine ⟨?_, ?_, ?_, rfl, hfetch user token stG refetch hG, ?_, ?_⟩
  · cases respL <;> rfl
  · cases respR <;> rfl
  · cases hu : stA.user with
    | none => simp [updateProfile, hu]
    | some u => cases respU <;> simp [updateProfile, hu]
  · cases user with
    | none => simpa [createSession] using hG
    | some u =>
        by_cases hrole : u.role = "instructor"
        · cases respC <;> simp [createSession, hrole]
        · simpa [createSession, hrole] using hG
  · cases user with
    | none => simpa [submitEvaluation] using hG
    | some u => cases respS <;> simp [submitEvaluation]

/-- C9, witnessed at concrete states and failing responses. -/
theorem isLoading_reset_after_completion_witness :
    (login staleAuthState .notOk).1.isLoading = false ∧
    (register staleAuthState .notOk).1.isLoading = false ∧
    (updateProfile staleAuthState (.err "x")).1.isLoading = false ∧
    (logout staleAuthState).1.isLoading = false ∧
    (fetchData none none idleGDState sampleFetchResponses).isLoading = false ∧
    (createSession none none idleGDState (.err "x")
      sampleFetchResponses).2.1.isLoading = false ∧
    (submitEvaluation none none idleGDState (.err "x")
      sampleFetchResponses).2.1.isLoading = false :=
  isLoading_reset_after_completion staleAuthState idleGDState rfl
    .notOk .notOk (.err "x") none none (.err "x") (.err "x")
    sampleFetchResponses

end GdEval
